import Mathlib

/-!
Verification development for the Confluence MCP server (yfujita/mcp-server-for-atlassian).

The repository's core is embedded shallowly:
 - `src/exceptions.py`: the exception classes become the inductive `MCPError`;
   the Python class of a raised exception is recovered by `classOf`.
 - `src/auth/api_token.py`: `APITokenAuth.__init__`, `get_auth_headers` and
   `authenticate` become `apiTokenAuthInit`, `getAuthHeaders` and `authenticate`.
   The fixed encoding of the cached header (base64 over the UTF-8 bytes of
   `email:api_token`, Python's `base64.b64encode`) is `b64encodeBytes ∘ utf8Bytes`;
   its reverse is `b64decodeChars`.
 - `src/confluence/client.py`: `ConfluenceClient._make_request` becomes
   `makeRequest`; the HTTP exchange of each attempt is abstracted by a script
   mapping the attempt's `retry_count` to that attempt's outcome
   (`AttemptOutcome`).  `search_pages`/`get_child_pages` parameter building
   becomes `searchPagesParams`/`getChildPagesParams`, and the content/format
   selection of `get_page_content` becomes `renderPageBody`.
 - `src/confluence/converters.py`: `ConfluenceHTMLConverter` becomes
   `convertWith`, parameterised by the external `markdownify` base conversion
   `mdFn : String → String`; `_preprocess_html` and `_postprocess_markdown` are
   implemented literally, with each `re.sub` realised as a left-to-right
   non-overlapping scan (`subScan`) driven by a per-pattern matcher.

Python semantics modelled explicitly: string truthiness (`""` is falsy),
int truthiness (`0` is falsy), `str.strip`/`rstrip` whitespace sets,
`int(str)` parsing (sign and ASCII digits; underscore grouping and non-ASCII
digits are not modelled, no input here uses them), and `ValueError` messages
for unparseable `int()` input (accurate for inputs free of quotes, backslashes
and control characters).
-/

set_option maxRecDepth 4000

/-! ## Python string primitives -/

/-- Python's whitespace set for `str.strip`/`str.rstrip` (ASCII part). -/
def isPyWs (c : Char) : Bool :=
  c == ' ' || c == '\t' || c == '\n' || c == '\r' || c == '\x0b' || c == '\x0c'

/-- Python `str.lstrip()` on a character list. -/
def pyLStrip (l : List Char) : List Char := l.dropWhile isPyWs

/-- Python `str.rstrip()` on a character list. -/
def pyRStrip (l : List Char) : List Char := (l.reverse.dropWhile isPyWs).reverse

/-- Python `str.strip()` on a character list. -/
def pyStrip (l : List Char) : List Char := pyRStrip (pyLStrip l)

/-- Python `s.rstrip("/")`: remove all trailing slashes. -/
def pyRStripSlashes (s : String) : String :=
  String.mk ((s.data.reverse.dropWhile (· == '/')).reverse)

/-- Value of a nonempty all-digit character list, else `none`. -/
def digitsVal (ds : List Char) : Option Nat :=
  if ds ≠ [] && ds.all (·.isDigit) then
    some (ds.foldl (fun a c => a * 10 + (c.toNat - 48)) 0)
  else none

/-- Python `int(s)`: strip whitespace, optional sign, decimal digits.
(Underscore grouping between digits is accepted by Python but not modelled;
no input exercised here contains it.) -/
def pyInt (s : String) : Option Int :=
  match pyStrip s.data with
  | '+' :: ds => (digitsVal ds).map (fun n => (n : Int))
  | '-' :: ds => (digitsVal ds).map (fun n => -(n : Int))
  | ds => (digitsVal ds).map (fun n => (n : Int))

/-- Python `repr` of a string (accurate for strings without quotes,
backslashes or control characters, the only ones appearing here). -/
def pyRepr (s : String) : String := "'" ++ s ++ "'"

/-- `str(e)` for the `ValueError` raised by `int(s)` on unparseable input. -/
def pyIntErr (s : String) : String :=
  "invalid literal for int() with base 10: " ++ pyRepr s

/-- Python `s.split("\n")` on a character list: the list of lines. -/
def splitNl : List Char → List (List Char)
  | [] => [[]]
  | c :: r =>
    if c = '\n' then [] :: splitNl r
    else
      match splitNl r with
      | [] => [[c]]
      | p :: ps => (c :: p) :: ps

/-- Python `"\n".join(lines)` on character lists. -/
def joinNl : List (List Char) → List Char
  | [] => []
  | [p] => p
  | p :: ps => p ++ '\n' :: joinNl ps

/-! ## Exceptions (src/exceptions.py) -/

/-- The Python class of a raised exception (`src/exceptions.py`).
In Python, `RateLimitError` and `PageNotFoundError` are subclasses of
`APIError`; `classOf` returns the concrete (most derived) class. -/
inductive PyExcClass where
  | authenticationErrorC
  | apiErrorC
  | rateLimitErrorC
  | pageNotFoundErrorC
  | conversionErrorC
deriving DecidableEq, Repr

/-- The exception values of `src/exceptions.py` with their constructor data:
`AuthenticationError(message, details)`, `APIError(message, status_code,
details)`, `RateLimitError(message, retry_after, details)` (status 429 fixed
by its constructor), `PageNotFoundError(page_id, details)` (status 404 fixed),
`ConversionError(message, details)`. -/
inductive MCPError where
  | authenticationError (message : String) (details : Option String)
  | apiError (message : String) (statusCode : Option Int) (details : Option String)
  | rateLimitError (message : String) (retryAfter : Option Int) (details : Option String)
  | pageNotFoundError (pageId : String) (details : Option String)
  | conversionError (message : String) (details : Option String)
deriving DecidableEq, Repr

/-- The concrete Python class of an `MCPError` value. -/
def classOf : MCPError → PyExcClass
  | .authenticationError _ _ => .authenticationErrorC
  | .apiError _ _ _ => .apiErrorC
  | .rateLimitError _ _ _ => .rateLimitErrorC
  | .pageNotFoundError _ _ => .pageNotFoundErrorC
  | .conversionError _ _ => .conversionErrorC

/-! ## Base64 and UTF-8 (the fixed encoding used by `APITokenAuth`) -/

/-- The base64 alphabet, as used by Python's `base64.b64encode`. -/
def b64Alphabet : List Char :=
  "ABCDEFGHIJKLMNOPQRSTUVWXYZabcdefghijklmnopqrstuvwxyz0123456789+/".data

/-- The character of a 6-bit group. -/
def encode6 (n : Nat) : Char := b64Alphabet.getD n 'A'

/-- The 6-bit group of an alphabet character, `none` for other characters. -/
def decode6 (c : Char) : Option Nat := b64Alphabet.indexOf? c

/-- Standard base64 of a byte list (`base64.b64encode`), with `=` padding. -/
def b64encodeBytes : List Nat → List Char
  | a :: b :: c :: rest =>
    encode6 (a / 4) :: encode6 ((a % 4) * 16 + b / 16) ::
      encode6 ((b % 16) * 4 + c / 64) :: encode6 (c % 64) :: b64encodeBytes rest
  | [a, b] => [encode6 (a / 4), encode6 ((a % 4) * 16 + b / 16), encode6 ((b % 16) * 4), '=']
  | [a] => [encode6 (a / 4), encode6 ((a % 4) * 16), '=', '=']
  | [] => []

/-- The reverse of the fixed encoding: base64 decoding of a character list
back to the byte list (the spec's "decodes — by the reverse of its fixed
encoding").  Fails on input that is not well-formed base64. -/
def b64decodeChars : List Char → Option (List Nat)
  | [] => some []
  | c1 :: c2 :: c3 :: c4 :: rest =>
    if c3 = '=' ∧ c4 = '=' ∧ rest = [] then
      match decode6 c1, decode6 c2 with
      | some s1, some s2 => some [s1 * 4 + s2 / 16]
      | _, _ => none
    else if c4 = '=' ∧ rest = [] then
      match decode6 c1, decode6 c2, decode6 c3 with
      | some s1, some s2, some s3 => some [s1 * 4 + s2 / 16, (s2 % 16) * 16 + s3 / 4]
      | _, _, _ => none
    else
      match decode6 c1, decode6 c2, decode6 c3, decode6 c4, b64decodeChars rest with
      | some s1, some s2, some s3, some s4, some tl =>
        some ((s1 * 4 + s2 / 16) :: ((s2 % 16) * 16 + s3 / 4) :: ((s3 % 4) * 64 + s4) :: tl)
      | _, _, _, _, _ => none
  | _ => none

/-- UTF-8 bytes of one code point. -/
def utf8BytesChar (n : Nat) : List Nat :=
  if n < 128 then [n]
  else if n < 2048 then [192 + n / 64, 128 + n % 64]
  else if n < 65536 then [224 + n / 4096, 128 + (n / 64) % 64, 128 + n % 64]
  else [240 + n / 262144, 128 + (n / 4096) % 64, 128 + (n / 64) % 64, 128 + n % 64]

/-- UTF-8 encoding of a string (Python `s.encode("utf-8")`). -/
def utf8Bytes (s : String) : List Nat :=
  (s.data.map (fun c => utf8BytesChar c.toNat)).flatten

/-! ## APITokenAuth (src/auth/api_token.py) -/

/-- The state of an `APITokenAuth` object after `__init__`. -/
structure APITokenAuthState where
  email : String
  apiToken : String
  /-- `self.base_url`: `base_url.rstrip("/") if base_url else None`. -/
  baseUrl : Option String
  authenticated : Bool
  cachedAuthHeader : String
deriving DecidableEq, Repr

/-- `APITokenAuth.__init__` (src/auth/api_token.py, lines 31-57): reject empty
email or token with `AuthenticationError`, normalise the base URL, precompute
the cached `Basic` header from the base64 of the UTF-8 bytes of
`email:api_token`. -/
def apiTokenAuthInit (email apiToken : String) (baseUrl : Option String) :
    Except MCPError APITokenAuthState :=
  if email = "" ∨ apiToken = "" then
    Except.error (MCPError.authenticationError "Email and API token are required"
      (some "Both ATLASSIAN_USER_EMAIL and ATLASSIAN_API_TOKEN must be set"))
  else
    Except.ok
      ⟨email, apiToken,
        (match baseUrl with
          | some b => if b = "" then none else some (pyRStripSlashes b)
          | none => none),
        false,
        "Basic " ++ String.mk (b64encodeBytes (utf8Bytes (email ++ ":" ++ apiToken)))⟩

/-- `APITokenAuth.get_auth_headers` (lines 59-75): exactly the cached
authorization value plus the content-type declaration. -/
def getAuthHeaders (st : APITokenAuthState) : List (String × String) :=
  [("Authorization", st.cachedAuthHeader), ("Content-Type", "application/json")]

/-! ## Retry-After parsing (shared by client and auth)

`retry_after_seconds = int(retry_after) if retry_after else None`: an absent
or empty (falsy) header gives `None`; a present non-empty header is parsed by
`int`, which raises `ValueError` on unparseable input.  The `Except.error`
payload is the `f"{type(e).__name__}: {str(e)}"` rendering of that exception,
to be wrapped by the caller's generic `except Exception` clause. -/

def retryAfterSeconds (h : Option String) : Except String (Option Int) :=
  match h with
  | none => Except.ok none
  | some s =>
    if s = "" then Except.ok none
    else
      match pyInt s with
      | some n => Except.ok (some n)
      | none => Except.error ("ValueError: " ++ pyIntErr s)

/-! ## APITokenAuth.authenticate (src/auth/api_token.py, lines 77-163) -/

/-- The outcome of the single validation HTTP exchange of
`APITokenAuth.authenticate`, abstracting httpx: a response, or the httpx
exception that the call raised (`TimeoutException`, other `RequestError`), or
any other unexpected exception. -/
inductive AuthOutcome where
  | resp (status : Int) (retryAfter : Option String) (text : String)
  | timeout (msg : String)
  | requestError (msg : String)
  | unexpected (excType : String) (msg : String)

/-- Python truthiness of `self.base_url : Optional[str]`. -/
def optStrFalsy : Option String → Bool
  | none => true
  | some b => b = ""

/-- The URL of the validation call, `f"{self.base_url}/rest/api/user/current"`
(only reached when `self.base_url` is truthy). -/
def authValidationUrl (st : APITokenAuthState) : String :=
  (match st.baseUrl with | some b => b | none => "") ++ "/rest/api/user/current"

/-- `APITokenAuth.authenticate`: skip validation when no base URL is set,
otherwise classify the single HTTP exchange.  Returns the Python result
(`True` or the raised exception) together with the new object state (the
`_authenticated` flag is set only on success). -/
def authenticate (st : APITokenAuthState) (outcome : AuthOutcome) :
    Except MCPError Bool × APITokenAuthState :=
  if optStrFalsy st.baseUrl then
    (Except.ok true, { st with authenticated := true })
  else
    match outcome with
    | .resp status retryAfter text =>
      if status = 200 then (Except.ok true, { st with authenticated := true })
      else if status = 401 then
        (Except.error (MCPError.authenticationError "Invalid credentials"
          (some ("API token or email is incorrect. " ++
            "Please verify your ATLASSIAN_API_TOKEN and ATLASSIAN_USER_EMAIL."))), st)
      else if status = 403 then
        (Except.error (MCPError.authenticationError "Access forbidden"
          (some ("Valid credentials but insufficient permissions. " ++
            "Ensure the user has access to the Confluence instance."))), st)
      else if status = 429 then
        match retryAfterSeconds retryAfter with
        | Except.error m =>
          -- the ValueError from `int(retry_after)` falls through to the
          -- final `except Exception` clause (lines 158-163)
          (Except.error (MCPError.apiError "Unexpected error during authentication" none
            (some ("Error: " ++ m))), st)
        | Except.ok ras =>
          (Except.error (MCPError.rateLimitError "Rate limit exceeded during authentication"
            ras (some "Too many authentication attempts. Please wait before retrying.")), st)
      else
        (Except.error (MCPError.apiError ("Authentication failed with status " ++ toString status)
          (some status) (some text)), st)
    | .timeout msg =>
      (Except.error (MCPError.apiError "Authentication request timed out" none
        (some ("Could not connect to " ++ authValidationUrl st ++ ": " ++ msg))), st)
    | .requestError msg =>
      (Except.error (MCPError.apiError "Network error during authentication" none
        (some ("Failed to connect to " ++ authValidationUrl st ++ ": " ++ msg))), st)
    | .unexpected excType msg =>
      (Except.error (MCPError.apiError "Unexpected error during authentication" none
        (some ("Error: " ++ excType ++ ": " ++ msg))), st)

/-! ## ConfluenceClient._make_request (src/confluence/client.py, lines 362-554) -/

/-- The outcome of one HTTP attempt inside `_make_request`, abstracting httpx:
a response with status, `Retry-After` header, raw text and parsed JSON body
(the latter kept abstract as a string), or the httpx exception class the
attempt raised, matched in the order of the `except` clauses
(`ConnectTimeout`, other `TimeoutException`, `ConnectError`, other
`RequestError`), or any other unexpected exception. -/
inductive AttemptOutcome where
  | resp (status : Int) (retryAfter : Option String) (text : String) (jsonBody : String)
  | connectTimeout (msg : String)
  | otherTimeout (msg : String)
  | connectError (msg : String)
  | requestError (msg : String)
  | unexpected (excType : String) (msg : String)

/-- The configuration of a `ConfluenceClient` plus the arguments of one
logical `_make_request` call.  `timeoutRepr` is the string rendering of the
float `self.timeout`, which only ever appears inside an error message. -/
structure ReqCfg where
  baseUrl : String
  maxRetries : Int
  timeoutRepr : String
  method : String
  endpoint : String

/-- `url = f"{self.api_base}{endpoint}"` with
`self.api_base = f"{base_url.rstrip('/')}/rest/api"`. -/
def apiUrl (cfg : ReqCfg) : String :=
  pyRStripSlashes cfg.baseUrl ++ "/rest/api" ++ cfg.endpoint

instance : DecidableEq (Except MCPError String) := fun x y =>
  match x, y with
  | .ok a, .ok b =>
    if h : a = b then isTrue (by rw [h]) else isFalse (by simp [h])
  | .error a, .error b =>
    if h : a = b then isTrue (by rw [h]) else isFalse (by simp [h])
  | .ok _, .error _ => isFalse (by simp)
  | .error _, .ok _ => isFalse (by simp)

/-- The observable behaviour of one logical `_make_request` call: its result
(parsed JSON body or raised exception), the `asyncio.sleep` durations awaited
before each reissue, in order, and the `retry_count` values of the HTTP
attempts actually issued, in order. -/
structure MRes where
  result : Except MCPError String
  sleeps : List Int
  issued : List Nat
deriving DecidableEq, Repr

/-- `wait_time = retry_after_seconds if retry_after_seconds else (2**retry_count)`
(Python int truthiness: `0` and `None` are falsy). -/
def backoffWait (ras : Option Int) (retryCount : Nat) : Int :=
  match ras with
  | some n => if n = 0 then 2 ^ retryCount else n
  | none => 2 ^ retryCount

/-- The recursion of `_make_request` after the client-initialisation check.
The retry gate `retry_count < self.max_retries` is realised structurally by
`gas = max_retries.toNat - retry_count`, which is positive exactly when the
gate holds (`makeRequest_gate`); `makeRequest` supplies this value, and every
recursive call preserves it (`gas` decreases by one as `retry_count`
increases by one). -/
def makeRequestGo (cfg : ReqCfg) (script : Nat → AttemptOutcome) :
    Nat → Nat → MRes
  | gas, retryCount =>
    match script retryCount with
    | .resp status retryAfter text jsonBody =>
      if status = 200 then ⟨Except.ok jsonBody, [], [retryCount]⟩
      else if status = 401 then
        ⟨Except.error (MCPError.authenticationError "Authentication failed"
          (some "Invalid API token or email. Please check your credentials.")),
          [], [retryCount]⟩
      else if status = 403 then
        ⟨Except.error (MCPError.authenticationError "Access forbidden"
          (some "Valid credentials but insufficient permissions to access this resource.")),
          [], [retryCount]⟩
      else if status = 404 then
        ⟨Except.error (MCPError.apiError "Resource not found" (some 404)
          (some (cfg.method ++ " " ++ apiUrl cfg ++ " returned 404"))), [], [retryCount]⟩
      else if status = 429 then
        match retryAfterSeconds retryAfter with
        | Except.error m =>
          -- the ValueError from `int(retry_after)` (line 443) is raised before
          -- the retry check and lands in the final `except Exception` clause
          -- (lines 548-553): no retry, generic APIError
          ⟨Except.error (MCPError.apiError "Unexpected error" none
            (some ("Unexpected error during API request: " ++ m))), [], [retryCount]⟩
        | Except.ok ras =>
          match gas with
          | g + 1 =>
            let w := backoffWait ras retryCount
            let res := makeRequestGo cfg script g (retryCount + 1)
            ⟨res.result, w :: res.sleeps, retryCount :: res.issued⟩
          | 0 =>
            ⟨Except.error (MCPError.rateLimitError "Rate limit exceeded" ras
              (some ("Max retries (" ++ toString cfg.maxRetries ++ ") exceeded"))),
              [], [retryCount]⟩
      else if 500 ≤ status then
        ⟨Except.error (MCPError.apiError ("Server error: " ++ toString status)
          (some status) (some text)), [], [retryCount]⟩
      else
        ⟨Except.error (MCPError.apiError ("HTTP error: " ++ toString status)
          (some status) (some text)), [], [retryCount]⟩
    | .connectTimeout msg =>
      match gas with
      | g + 1 =>
        let res := makeRequestGo cfg script g (retryCount + 1)
        ⟨res.result, ((2 : Int) ^ retryCount) :: res.sleeps, retryCount :: res.issued⟩
      | 0 =>
        ⟨Except.error (MCPError.apiError "Connection timeout" none
          (some ("Failed to connect to " ++ apiUrl cfg ++ " after " ++
            toString cfg.maxRetries ++ " retries: " ++ msg))), [], [retryCount]⟩
    | .otherTimeout msg =>
      ⟨Except.error (MCPError.apiError "Request timed out" none
        (some ("Request to " ++ apiUrl cfg ++ " timed out after " ++
          cfg.timeoutRepr ++ "s: " ++ msg))), [], [retryCount]⟩
    | .connectError msg =>
      match gas with
      | g + 1 =>
        let res := makeRequestGo cfg script g (retryCount + 1)
        ⟨res.result, ((2 : Int) ^ retryCount) :: res.sleeps, retryCount :: res.issued⟩
      | 0 =>
        ⟨Except.error (MCPError.apiError "Connection error" none
          (some ("Failed to connect to " ++ apiUrl cfg ++ " after " ++
            toString cfg.maxRetries ++ " retries: " ++ msg))), [], [retryCount]⟩
    | .requestError msg =>
      ⟨Except.error (MCPError.apiError "Network error" none
        (some ("Failed to connect to " ++ apiUrl cfg ++ ": " ++ msg))), [], [retryCount]⟩
    | .unexpected excType msg =>
      ⟨Except.error (MCPError.apiError "Unexpected error" none
        (some ("Unexpected error during API request: " ++ excType ++ ": " ++ msg))),
        [], [retryCount]⟩

/-- `ConfluenceClient._make_request`: the `self._client` check (lines
390-391), then the attempt/retry recursion.  `clientInit` is whether the HTTP
session handle `self._client` is set; `script` maps each attempt's
`retry_count` to the outcome of its HTTP exchange; `retryCount` is the
`retry_count` argument (0 for every external call). -/
def makeRequest (cfg : ReqCfg) (clientInit : Bool) (script : Nat → AttemptOutcome)
    (retryCount : Nat) : MRes :=
  if clientInit then
    makeRequestGo cfg script (cfg.maxRetries.toNat - retryCount) retryCount
  else
    ⟨Except.error (MCPError.apiError
      "Client not initialized. Use 'async with' context manager." none none), [], []⟩

/-! ## Limit clamping and page-content rendering (src/confluence/client.py) -/

/-- `ConfluenceClient.MAX_RESULTS_PER_PAGE`. -/
def MAX_RESULTS_PER_PAGE : Int := 100

/-- `ConfluenceClient.MIN_RESULTS_PER_PAGE`. -/
def MIN_RESULTS_PER_PAGE : Int := 1

/-- The query parameters of `search_pages` (lines 129-140):
`limit = min(max(self.MIN_RESULTS_PER_PAGE, limit), self.MAX_RESULTS_PER_PAGE)`,
then `params = {"cql": cql_query, "limit": limit, "start": start}`. -/
structure SearchParams where
  cql : String
  limit : Int
  start : Int
deriving DecidableEq, Repr

def searchPagesParams (cqlQuery : String) (limit start : Int) : SearchParams :=
  ⟨cqlQuery, min (max MIN_RESULTS_PER_PAGE limit) MAX_RESULTS_PER_PAGE, start⟩

/-- The query parameters of `get_child_pages` (lines 309-317): the same clamp,
then `params = {"limit": limit, "start": start}`. -/
structure ChildParams where
  limit : Int
  start : Int
deriving DecidableEq, Repr

def getChildPagesParams (limit start : Int) : ChildParams :=
  ⟨min (max MIN_RESULTS_PER_PAGE limit) MAX_RESULTS_PER_PAGE, start⟩

/-- The outcome of `html_to_markdown(html_content)` as observed by
`get_page_content`: a value, or a raised exception (of any Python class). -/
inductive ConvOutcome where
  | ok (md : String)
  | exn (excType : String) (msg : String)

/-- The content/format selection of `get_page_content` (lines 229-244):
`if as_markdown and html_content:` try the converter, fall back to the raw
storage markup on any exception; otherwise return the raw markup as HTML.
The result is (content, content_format, whether the converter was invoked). -/
def renderPageBody (asMarkdown : Bool) (htmlContent : String)
    (conv : String → ConvOutcome) : String × String × Bool :=
  if asMarkdown ∧ htmlContent ≠ "" then
    match conv htmlContent with
    | .ok md => (md, "markdown", true)
    | .exn _ _ => (htmlContent, "html", true)
  else (htmlContent, "html", false)

/-! ## ConfluenceHTMLConverter (src/confluence/converters.py)

Each `re.sub(pattern, repl, s)` is realised as `subScan tm s`: a left-to-right
scan that, at each position, asks the pattern matcher `tm` for a match on the
current suffix; on a match of `k` consumed characters it emits the
replacement and resumes after the match (re.sub's non-overlapping semantics),
otherwise it emits one character and advances.  Every pattern used by the
converter consumes at least one character, and each matcher reproduces the
backtracking behaviour of its regular expression (`[^>]*` and `[^>]+` stop at
the first `>`, `.*?` takes the first occurrence of the following literal,
`#{1,6}` only matches a full run of at most six hashes followed by the
required space). -/

def subScanF (tm : List Char → Option (Nat × List Char)) : Nat → List Char → List Char
  | 0, l => l
  | _ + 1, [] => []
  | fuel + 1, c :: r =>
    match tm (c :: r) with
    | some (k, repl) => repl ++ subScanF tm fuel ((c :: r).drop k)
    | none => c :: subScanF tm fuel r

/-- `re.sub` driver: the fuel `l.length` dominates the number of scan steps,
since every match consumes at least one character. -/
def subScan (tm : List Char → Option (Nat × List Char)) (l : List Char) : List Char :=
  subScanF tm l.length l

/-- Index of the first occurrence of the literal `lit`. -/
def findLit (lit : List Char) : List Char → Option Nat
  | [] => if lit.isEmpty then some 0 else none
  | c :: r => if lit.isPrefixOf (c :: r) then some 0 else (findLit lit r).map (· + 1)

/-- `re.search(openLit + "([^" + stop + "]+)" + closeLit, s)`: scan for the
first occurrence of `openLit` followed by a nonempty capture free of `stop`
and then `closeLit`; on a shape failure the scan resumes one character on,
exactly as the regex engine does. -/
def searchCapture (openLit : List Char) (stop : Char) (closeLit : List Char) :
    List Char → Option (List Char)
  | [] => none
  | s@(_ :: r) =>
    if openLit.isPrefixOf s then
      let after := s.drop openLit.length
      let cap := after.takeWhile (· != stop)
      if 1 ≤ cap.length && closeLit.isPrefixOf (after.drop cap.length) then some cap
      else searchCapture openLit stop closeLit r
    else searchCapture openLit stop closeLit r

/-- `re.search(openLit + "(.*?)" + closeLit, s, re.DOTALL)`: leftmost
occurrence of `openLit`, then the shortest capture up to `closeLit`.  (If no
`closeLit` follows the first `openLit`, none follows a later one either, so
the whole search fails.) -/
def searchLazyCapture (openLit closeLit : List Char) (s : List Char) : Option (List Char) :=
  match findLit openLit s with
  | none => none
  | some i =>
    let after := (s.drop i).drop openLit.length
    match findLit closeLit after with
    | none => none
    | some j => some (after.take j)

/-- `ConfluenceHTMLConverter._extract_macro_parameter` (lines 152-165):
first match of `<ac:parameter ac:name="NAME">([^<]+)</ac:parameter>`,
empty string when absent. -/
def extractMacroParameter (pname : String) (html : List Char) : List Char :=
  (searchCapture ("<ac:parameter ac:name=\"" ++ pname ++ "\">").data '<'
    "</ac:parameter>".data html).getD []

/-- `ConfluenceHTMLConverter._extract_macro_body` (lines 167-187): try the
CDATA pattern `<ac:TYPE><![CDATA[(.*?)]]></ac:TYPE>` first, then the plain
pattern `<ac:TYPE>(.*?)</ac:TYPE>`; the captured group is stripped. -/
def extractMacroBody (bodyType : String) (html : List Char) : List Char :=
  match searchLazyCapture ("<ac:" ++ bodyType ++ "><![CDATA[").data
      ("]]></ac:" ++ bodyType ++ ">").data html with
  | some cap => pyStrip cap
  | none =>
    match searchLazyCapture ("<ac:" ++ bodyType ++ ">").data
        ("</ac:" ++ bodyType ++ ">").data html with
    | some cap => pyStrip cap
    | none => []

/-- Matcher for `openLit + [^>]*> .*? closeLit` (DOTALL): the attribute run
stops at the first `>`, the lazy part at the first `closeLit`.  Returns the
total matched length. -/
def matchTagBlock (openLit closeLit : List Char) (s : List Char) : Option Nat :=
  if openLit.isPrefixOf s then
    let after := s.drop openLit.length
    let attrs := after.takeWhile (· != '>')
    match after.drop attrs.length with
    | '>' :: rest2 =>
      match findLit closeLit rest2 with
      | none => none
      | some j => some (openLit.length + attrs.length + 1 + j + closeLit.length)
    | _ => none
  else none

/-- The per-position matcher of a structured-macro `re.sub`: pattern
`openLit[^>]*>.*?</ac:structured-macro>` with the replacement computed from
the full matched text. -/
def tmStructuredBlock (openLit : List Char) (repl : List Char → List Char)
    (s : List Char) : Option (Nat × List Char) :=
  match matchTagBlock openLit "</ac:structured-macro>".data s with
  | some k => some (k, repl (s.take k))
  | none => none

/-- `replace_code_macro` (lines 209-219):
`f"\n***{language}\n{code_content}\n***\n"` with fenced-code backticks. -/
def replaceCodeBlock (full : List Char) : List Char :=
  let language := extractMacroParameter "language" full
  let codeContent := extractMacroBody "plain-text-body" full
  "\n```".data ++ language ++ '\n' :: codeContent ++ '\n' :: "```\n".data

/-- The quoting step of `replace_panel_macro`: prefix every line of the
converted body with "> " (a lone ">" for blank lines). -/
def quoteLines (l : List Char) : List Char :=
  joinNl ((splitNl l).map (fun line => if line.isEmpty then ['>'] else '>' :: ' ' :: line))

/-- `replace_panel_macro` (lines 238-257) for one indicator: title parameter,
rich-text body converted through the base conversion when non-empty, then a
blockquote `f"\n> **{header}**\n{quoted}\n"`. -/
def replacePanelBlock (mdFn : String → String) (indicator : String)
    (full : List Char) : List Char :=
  let title := extractMacroParameter "title" full
  let body := extractMacroBody "rich-text-body" full
  let bodyMd := if body.isEmpty then [] else (mdFn (String.mk body)).data
  let header := if title.isEmpty then indicator.data
    else indicator.data ++ ": ".data ++ title
  "\n> **".data ++ header ++ "**\n".data ++ quoteLines bodyMd ++ ['\n']

/-- `_handle_confluence_macros` (lines 189-288): code macro, then the four
panel macros in dict order (info, warning, note, tip), then toc removal, then
the generic unhandled-macro pass that keeps the rich-text body. -/
def handleConfluenceMacros (mdFn : String → String) (html : List Char) : List Char :=
  let p1 := subScan
    (tmStructuredBlock "<ac:structured-macro ac:name=\"code\"".data replaceCodeBlock) html
  let p2 := subScan (tmStructuredBlock "<ac:structured-macro ac:name=\"info\"".data
    (replacePanelBlock mdFn "ℹ️ INFO")) p1
  let p3 := subScan (tmStructuredBlock "<ac:structured-macro ac:name=\"warning\"".data
    (replacePanelBlock mdFn "⚠️ WARNING")) p2
  let p4 := subScan (tmStructuredBlock "<ac:structured-macro ac:name=\"note\"".data
    (replacePanelBlock mdFn "📝 NOTE")) p3
  let p5 := subScan (tmStructuredBlock "<ac:structured-macro ac:name=\"tip\"".data
    (replacePanelBlock mdFn "💡 TIP")) p4
  let p6 := subScan (tmStructuredBlock "<ac:structured-macro ac:name=\"toc\"".data
    (fun _ => [])) p5
  let p7 := subScan (tmStructuredBlock "<ac:structured-macro".data
    (fun full => extractMacroBody "rich-text-body" full)) p6
  p7

/-- The `<ri:NAME[^>]+/>` shape after the inner literal: a run of at least
two non-`>` characters ending in `/`, then `>` (the regex `[^>]+` consumes
the run greedily and backtracks one character for the literal `/`).  Returns
the consumed length. -/
def riShapeLen (t : List Char) : Option Nat :=
  let run := t.takeWhile (· != '>')
  if 2 ≤ run.length && run.getLast? == some '/' then
    match t.drop run.length with
    | '>' :: _ => some (run.length + 1)
    | _ => none
  else none

/-- First occurrence of `innerLit` followed by the self-closed shape; on a
shape failure the lazy `.*?` extends past it to the next occurrence.  Returns
the offset just past the closing `>`. -/
def findInnerSelfClosed (innerLit : List Char) : List Char → Option Nat
  | [] => none
  | s@(_ :: r) =>
    if innerLit.isPrefixOf s then
      match riShapeLen (s.drop innerLit.length) with
      | some m => some (innerLit.length + m)
      | none =>
        match findInnerSelfClosed innerLit r with
        | some e => some (e + 1)
        | none => none
    else
      match findInnerSelfClosed innerLit r with
      | some e => some (e + 1)
      | none => none

/-- Matcher for `openLit .*? innerLit[^>]+/> .*? closeLit` where `openLit` is
a complete literal (the `<ac:link>` patterns).  Returns the matched length. -/
def matchWrapperBlock (openLit innerLit closeLit : List Char) (s : List Char) : Option Nat :=
  if openLit.isPrefixOf s then
    let afterOpen := s.drop openLit.length
    match findInnerSelfClosed innerLit afterOpen with
    | none => none
    | some e =>
      match findLit closeLit (afterOpen.drop e) with
      | none => none
      | some j => some (openLit.length + e + j + closeLit.length)
  else none

/-- Matcher for `openLit[^>]*> .*? innerLit[^>]+/> .*? closeLit`
(the `<ac:image[^>]*>` patterns). -/
def matchWrapperBlockAttrs (openLit innerLit closeLit : List Char)
    (s : List Char) : Option Nat :=
  if openLit.isPrefixOf s then
    let after := s.drop openLit.length
    let attrs := after.takeWhile (· != '>')
    match after.drop attrs.length with
    | '>' :: rest2 =>
      match findInnerSelfClosed innerLit rest2 with
      | none => none
      | some e =>
        match findLit closeLit (rest2.drop e) with
        | none => none
        | some j => some (openLit.length + attrs.length + 1 + e + j + closeLit.length)
    | _ => none
  else none

/-- `re.search(r"<ac:link[^>]*>(.*?)" + innerLit, full, re.DOTALL)`: the
original inner text of a link element, up to the reference sub-element. -/
def extractLinkText (innerLit : List Char) (full : List Char) : Option (List Char) :=
  match findLit "<ac:link".data full with
  | none => none
  | some i =>
    let after := (full.drop i).drop 8
    let attrs := after.takeWhile (· != '>')
    match after.drop attrs.length with
    | '>' :: rest2 =>
      match findLit innerLit rest2 with
      | some j => some (rest2.take j)
      | none => none
    | _ => none

/-- `replace_page_link` (lines 303-318): title from `ri:content-title`, link
text from the element's plain inner text if non-empty and tag-free, else the
title; unmodified when the title attribute is absent. -/
def pageLinkRepl (full : List Char) : List Char :=
  match searchCapture "ri:content-title=\"".data '"' ['"'] full with
  | none => full
  | some title =>
    let lt :=
      match extractLinkText "<ri:page".data full with
      | some t => pyStrip t
      | none => title
    let linkText := if lt.isEmpty || lt.contains '<' then title else lt
    "<a href=\"#".data ++ title ++ "\">".data ++ linkText ++ "</a>".data

/-- `replace_url_link` (lines 328-342): like `replace_page_link` with the URL
from `ri:value` as both target and fallback text. -/
def urlLinkRepl (full : List Char) : List Char :=
  match searchCapture "ri:value=\"".data '"' ['"'] full with
  | none => full
  | some url =>
    let lt :=
      match extractLinkText "<ri:url".data full with
      | some t => pyStrip t
      | none => url
    let linkText := if lt.isEmpty || lt.contains '<' then url else lt
    "<a href=\"".data ++ url ++ "\">".data ++ linkText ++ "</a>".data

/-- `_handle_confluence_links` (lines 290-351): page links then URL links. -/
def handleConfluenceLinks (html : List Char) : List Char :=
  let p1 := subScan (fun s =>
    (matchWrapperBlock "<ac:link>".data "<ri:page".data "</ac:link>".data s).map
      (fun k => (k, pageLinkRepl (s.take k)))) html
  let p2 := subScan (fun s =>
    (matchWrapperBlock "<ac:link>".data "<ri:url".data "</ac:link>".data s).map
      (fun k => (k, urlLinkRepl (s.take k)))) p1
  p2

/-- `replace_image` (lines 366-379): `<img src="{filename}" alt="{alt}" />`
with the alt text defaulting to the filename; unmodified without filename. -/
def imageAttachRepl (full : List Char) : List Char :=
  match searchCapture "ri:filename=\"".data '"' ['"'] full with
  | none => full
  | some filename =>
    let alt := (searchCapture "ac:alt=\"".data '"' ['"'] full).getD filename
    "<img src=\"".data ++ filename ++ "\" alt=\"".data ++ alt ++ "\" />".data

/-- `replace_url_image` (lines 389-400): alt text defaults to "image". -/
def imageUrlRepl (full : List Char) : List Char :=
  match searchCapture "ri:value=\"".data '"' ['"'] full with
  | none => full
  | some url =>
    let alt := (searchCapture "ac:alt=\"".data '"' ['"'] full).getD "image".data
    "<img src=\"".data ++ url ++ "\" alt=\"".data ++ alt ++ "\" />".data

/-- `_handle_confluence_images` (lines 353-409): attachment images then
URL-based images. -/
def handleConfluenceImages (html : List Char) : List Char :=
  let p1 := subScan (fun s =>
    (matchWrapperBlockAttrs "<ac:image".data "<ri:attachment".data "</ac:image>".data s).map
      (fun k => (k, imageAttachRepl (s.take k)))) html
  let p2 := subScan (fun s =>
    (matchWrapperBlockAttrs "<ac:image".data "<ri:url".data "</ac:image>".data s).map
      (fun k => (k, imageUrlRepl (s.take k)))) p1
  p2

/-- Matcher for the empty-wrapper removal
`re.sub(r"<ac:structured-macro[^>]*>\s*</ac:structured-macro>", "", s)`. -/
def tmEmptyWrapper (s : List Char) : Option (Nat × List Char) :=
  if "<ac:structured-macro".data.isPrefixOf s then
    let after := s.drop "<ac:structured-macro".data.length
    let attrs := after.takeWhile (· != '>')
    match after.drop attrs.length with
    | '>' :: rest2 =>
      let ws := rest2.takeWhile isPyWs
      if "</ac:structured-macro>".data.isPrefixOf (rest2.drop ws.length) then
        some ("<ac:structured-macro".data.length + attrs.length + 1 + ws.length +
          "</ac:structured-macro>".data.length, [])
      else none
    | _ => none
  else none

/-- `ConfluenceHTMLConverter._preprocess_html` (lines 85-115): macros, links,
images, then empty-wrapper removal. -/
def preprocessHtml (mdFn : String → String) (html : List Char) : List Char :=
  let p1 := handleConfluenceMacros mdFn html
  let p2 := handleConfluenceLinks p1
  let p3 := handleConfluenceImages p2
  subScan tmEmptyWrapper p3

/-! ### `_postprocess_markdown` (lines 117-150) -/

/-- `re.sub(r"\n{3,}", "\n\n", s)`: a run of at least three newlines is
consumed whole (greedy) and replaced by two. -/
def tmCollapseNl (s : List Char) : Option (Nat × List Char) :=
  if 3 ≤ (s.takeWhile (· == '\n')).length then
    some ((s.takeWhile (· == '\n')).length, ['\n', '\n'])
  else none

/-- `"\n".join(line.rstrip() for line in s.split("\n"))`. -/
def pyRStripLines (l : List Char) : List Char :=
  joinNl ((splitNl l).map pyRStrip)

/-- `re.sub(r"([^\n])\n(#{1,6} )", r"\1\n\n\2", s)`: a non-newline character,
a newline, one to six hashes and a space (a run of seven or more hashes
cannot match, since the character after at most six consumed hashes is
another hash, not the required space). -/
def tmBlankBeforeHeading : List Char → Option (Nat × List Char)
  | c :: '\n' :: rest =>
    if c = '\n' then none
    else
      let hs := rest.takeWhile (· == '#')
      if 1 ≤ hs.length && hs.length ≤ 6 then
        match rest.drop hs.length with
        | ' ' :: _ => some (2 + hs.length + 1, c :: '\n' :: '\n' :: (hs ++ [' ']))
        | _ => none
      else none
  | _ => none

/-- `re.sub(r"(#{1,6} .+)\n([^\n#])", r"\1\n\n\2", s)`: one to six hashes, a
space, a nonempty rest-of-line, a newline, then a character that is neither a
newline nor a hash.  (The scan tries every position, so the pattern can also
fire mid-line and on the six-hash tail of a longer hash run, exactly like the
regex.) -/
def tmBlankAfterHeading (s : List Char) : Option (Nat × List Char) :=
  let hs := s.takeWhile (· == '#')
  if 1 ≤ hs.length && hs.length ≤ 6 then
    match s.drop hs.length with
    | ' ' :: rest =>
      let body := rest.takeWhile (· != '\n')
      if body.isEmpty then none
      else
        match rest.drop body.length with
        | '\n' :: d :: _ =>
          if d = '\n' ∨ d = '#' then none
          else some (hs.length + 1 + body.length + 2,
            hs ++ ' ' :: (body ++ '\n' :: '\n' :: [d]))
        | _ => none
    | _ => none
  else none

/-- First fence cleanup `re.sub(r"(три)\n\n", ..., s)`: the literal
three-backticks-newline-newline becomes three-backticks-newline. -/
def tmFenceOpenBlank (s : List Char) : Option (Nat × List Char) :=
  if "```\n\n".data.isPrefixOf s then some (5, "```\n".data) else none

/-- Second fence cleanup: the literal newline-newline-three-backticks becomes
newline-three-backticks. -/
def tmFenceCloseBlank (s : List Char) : Option (Nat × List Char) :=
  if "\n\n```".data.isPrefixOf s then some (5, "\n```".data) else none

/-- `ConfluenceHTMLConverter._postprocess_markdown` on character lists: the
five ordered cleanups of lines 133-148 followed by the final `.strip()`. -/
def postprocessMarkdownL (l : List Char) : List Char :=
  let c1 := subScan tmCollapseNl l
  let c2 := pyRStripLines c1
  let c3 := subScan tmBlankBeforeHeading c2
  let c4 := subScan tmBlankAfterHeading c3
  let c5 := subScan tmFenceOpenBlank c4
  let c6 := subScan tmFenceCloseBlank c5
  pyStrip c6

/-- `ConfluenceHTMLConverter._postprocess_markdown`. -/
def postprocessMarkdown (s : String) : String :=
  String.mk (postprocessMarkdownL s.data)

/-- The result of `ConfluenceHTMLConverter.convert`, together with whether
the base conversion step (`markdownify`, line 70) was invoked. -/
structure ConvertResult where
  output : String
  baseInvoked : Bool
deriving DecidableEq, Repr

/-- `ConfluenceHTMLConverter.convert` (lines 40-83), parameterised by the
external `markdownify` base conversion `mdFn`: `if not html: return ""`
(string truthiness — only the empty string is falsy), else preprocess, base
conversion, postprocess.  The `except`-wrapping of pipeline exceptions into
`ConversionError` (lines 78-83) is not triggered here because the embedded
stages and `mdFn` are total functions. -/
def convertWith (mdFn : String → String) (html : String) : ConvertResult :=
  if html = "" then ⟨"", false⟩
  else ⟨postprocessMarkdown (mdFn (String.mk (preprocessHtml mdFn html.data))), true⟩

/-! ### Normal form of postprocessed markdown -/

/-- No suffix of `l` matches the pattern `tm`. -/
def noMatchIn (tm : List Char → Option (Nat × List Char)) (l : List Char) : Bool :=
  l.tails.all (fun t => (tm t).isNone)

/-- A string is in postprocess normal form when none of the five rewrite
patterns of `_postprocess_markdown` occurs in it, its lines carry no trailing
whitespace, and it has no leading/trailing whitespace. -/
def cleanMarkdown (l : List Char) : Bool :=
  noMatchIn tmCollapseNl l && (pyRStripLines l == l) &&
    noMatchIn tmBlankBeforeHeading l && noMatchIn tmBlankAfterHeading l &&
    noMatchIn tmFenceOpenBlank l && noMatchIn tmFenceCloseBlank l &&
    (pyStrip l == l)

/-- All characters are Python whitespace. -/
def wsOnly (l : List Char) : Bool := l.all isPyWs

/-- All characters are newlines. -/
def nlOnly (l : List Char) : Bool := l.all (· == '\n')

/-! ## Theorems -/

/-! ### Base64 round trip -/

theorem decode6_encode6 : ∀ n, n < 64 → decode6 (encode6 n) = some n := by decide

theorem encode6_ne_eq : ∀ n, n < 64 → encode6 n ≠ '=' := by decide

theorem b64_roundtrip :
    ∀ bs : List Nat, (∀ b ∈ bs, b < 256) →
      b64decodeChars (b64encodeBytes bs) = some bs := by
  intro bs
  induction bs using b64encodeBytes.induct with
  | case1 a b c rest ih =>
    intro h
    have ha : a < 256 := h a (by simp)
    have hb : b < 256 := h b (by simp)
    have hc : c < 256 := h c (by simp)
    have h1 : a / 4 < 64 := by omega
    have h2 : (a % 4) * 16 + b / 16 < 64 := by omega
    have h3 : (b % 16) * 4 + c / 64 < 64 := by omega
    have h4 : c % 64 < 64 := by omega
    have htl : b64decodeChars (b64encodeBytes rest) = some rest := by
      exact ih (fun x hx => h x (by simp [hx]))
    simp only [b64encodeBytes, b64decodeChars]
    rw [if_neg (by
      intro hcon
      exact encode6_ne_eq _ h3 hcon.1)]
    rw [if_neg (by
      intro hcon
      exact encode6_ne_eq _ h4 hcon.1)]
    rw [decode6_encode6 _ h1, decode6_encode6 _ h2, decode6_encode6 _ h3,
      decode6_encode6 _ h4, htl]
    simp only [Option.some.injEq, List.cons.injEq]
    refine ⟨by omega, by omega, by omega, trivial⟩
  | case2 a b =>
    intro h
    have ha : a < 256 := h a (by simp)
    have hb : b < 256 := h b (by simp)
    have h1 : a / 4 < 64 := by omega
    have h2 : (a % 4) * 16 + b / 16 < 64 := by omega
    have h3 : (b % 16) * 4 < 64 := by omega
    simp only [b64encodeBytes, b64decodeChars]
    rw [if_neg (by
      intro hcon
      exact encode6_ne_eq _ h3 hcon.1)]
    rw [if_pos (by simp)]
    rw [decode6_encode6 _ h1, decode6_encode6 _ h2, decode6_encode6 _ h3]
    simp only [Option.some.injEq, List.cons.injEq]
    refine ⟨by omega, by omega, trivial⟩
  | case3 a =>
    intro h
    have ha : a < 256 := h a (by simp)
    have h1 : a / 4 < 64 := by omega
    have h2 : (a % 4) * 16 < 64 := by omega
    simp only [b64encodeBytes, b64decodeChars]
    rw [if_pos (by simp)]
    rw [decode6_encode6 _ h1, decode6_encode6 _ h2]
    simp only [Option.some.injEq, List.cons.injEq]
    refine ⟨by omega, trivial⟩
  | case4 =>
    intro _
    rfl

theorem utf8BytesChar_lt (n : Nat) (hn : n < 1114112) :
    ∀ b ∈ utf8BytesChar n, b < 256 := by
  intro b hb
  unfold utf8BytesChar at hb
  split at hb
  · simp at hb; omega
  · split at hb
    · simp at hb
      rcases hb with h | h <;> omega
    · split at hb
      · simp at hb
        rcases hb with h | h | h <;> omega
      · simp at hb
        rcases hb with h | h | h | h <;> omega

theorem utf8Bytes_lt (s : String) : ∀ b ∈ utf8Bytes s, b < 256 := by
  intro b hb
  unfold utf8Bytes at hb
  rw [List.mem_flatten] at hb
  obtain ⟨l, hl, hbl⟩ := hb
  rw [List.mem_map] at hl
  obtain ⟨c, _, rfl⟩ := hl
  have hc : c.toNat < 1114112 := by
    have h := c.valid
    simp only [UInt32.isValidChar, Nat.isValidChar] at h
    rcases h with h | h
    · exact Nat.lt_trans h (by norm_num)
    · exact h.2
  exact utf8BytesChar_lt _ hc b hbl

/-- The `gas` value supplied by `makeRequest` is positive exactly when the
source's retry gate `retry_count < self.max_retries` holds, and the invariant
`gas = max_retries.toNat - retry_count` is preserved by each recursive call
(`gas` and `max_retries.toNat - retry_count` both decrease by one). -/
theorem makeRequest_gate (maxRetries : Int) (r : Nat) :
    0 < maxRetries.toNat - r ↔ (r : Int) < maxRetries := by omega

/-! ### Step lemmas for `makeRequestGo` -/

theorem makeRequestGo_connectTimeout_retry (cfg : ReqCfg) (script : Nat → AttemptOutcome)
    (g r : Nat) (msg : String) (h : script r = AttemptOutcome.connectTimeout msg) :
    makeRequestGo cfg script (g + 1) r =
      ⟨(makeRequestGo cfg script g (r + 1)).result,
        ((2 : Int) ^ r) :: (makeRequestGo cfg script g (r + 1)).sleeps,
        r :: (makeRequestGo cfg script g (r + 1)).issued⟩ := by
  conv_lhs => rw [makeRequestGo]
  rw [h]

theorem makeRequestGo_connectTimeout_exhausted (cfg : ReqCfg) (script : Nat → AttemptOutcome)
    (r : Nat) (msg : String) (h : script r = AttemptOutcome.connectTimeout msg) :
    makeRequestGo cfg script 0 r =
      ⟨Except.error (MCPError.apiError "Connection timeout" none
        (some ("Failed to connect to " ++ apiUrl cfg ++ " after " ++
          toString cfg.maxRetries ++ " retries: " ++ msg))), [], [r]⟩ := by
  conv_lhs => rw [makeRequestGo]
  rw [h]

/-! ### Claim C1 -/

/-- Claim C1, amended: calling `_make_request` while the HTTP session handle
`self._client` is `None` fails immediately — for every method, endpoint,
query, body, configuration and `retry_count` — with the repository's plain
`APIError` carrying the message "Client not initialized. Use 'async with'
context manager."; no HTTP attempt is issued and no backoff sleep occurs, so
the failure is never retried.  (The claim's "distinct exception
NotInitializedError" does not hold: see the counterexample.) -/
theorem claim_C1 (cfg : ReqCfg) (script : Nat → AttemptOutcome) (retryCount : Nat) :
    makeRequest cfg false script retryCount =
      ⟨Except.error (MCPError.apiError
        "Client not initialized. Use 'async with' context manager." none none), [], []⟩ := by
  rfl

/-- Claim C1, counterexample to "fails with the distinct exception
NotInitializedError": the failure raised before the session is acquired is a
plain `APIError` — exactly the same exception class that `_make_request` uses
for generic remote-service failures (here a network error) — not a distinct
exception class; `src/exceptions.py` defines no `NotInitializedError`. -/
theorem claim_C1_cex :
    (makeRequest ⟨"https://test", 3, "30.0", "GET", "/x"⟩ false
        (fun _ => AttemptOutcome.requestError "net down") 0).result =
      Except.error (MCPError.apiError
        "Client not initialized. Use 'async with' context manager." none none) ∧
    (makeRequest ⟨"https://test", 3, "30.0", "GET", "/x"⟩ true
        (fun _ => AttemptOutcome.requestError "net down") 0).result =
      Except.error (MCPError.apiError "Network error" none
        (some "Failed to connect to https://test/rest/api/x: net down")) ∧
    classOf (MCPError.apiError
        "Client not initialized. Use 'async with' context manager." none none) =
      classOf (MCPError.apiError "Network error" none
        (some "Failed to connect to https://test/rest/api/x: net down")) := by
  refine ⟨rfl, rfl, rfl⟩

/-! ### Claim C5 -/

/-- Claim C5: a request that receives a 429 response carrying
`Retry-After: 60` when the configured maximum retry count is 0 fails
immediately with `RateLimitError` whose `retry_after` field equals 60, with
no retry attempt (exactly the one original HTTP attempt is issued) and no
backoff sleep; its details read "Max retries (0) exceeded". -/
theorem claim_C5 (cfg : ReqCfg) (script : Nat → AttemptOutcome) (text jsonBody : String)
    (hmr : cfg.maxRetries = 0)
    (hs : script 0 = AttemptOutcome.resp 429 (some "60") text jsonBody) :
    makeRequest cfg true script 0 =
      ⟨Except.error (MCPError.rateLimitError "Rate limit exceeded" (some 60)
        (some ("Max retries (" ++ toString cfg.maxRetries ++ ") exceeded"))), [], [0]⟩ ∧
    ("Max retries (" ++ toString cfg.maxRetries ++ ") exceeded") =
      "Max retries (0) exceeded" := by
  have hg : cfg.maxRetries.toNat - 0 = 0 := by rw [hmr]; rfl
  constructor
  · rw [makeRequest, if_pos rfl, hg]
    conv_lhs => rw [makeRequestGo]
    rw [hs]
    rfl
  · rw [hmr]
    rfl

/-- Witness for C5 at a concrete configuration and script. -/
theorem claim_C5_witness :
    makeRequest ⟨"https://test.atlassian.net/wiki", 0, "30.0", "GET", "/content/search"⟩
        true (fun _ => AttemptOutcome.resp 429 (some "60") "busy" "{}") 0 =
      ⟨Except.error (MCPError.rateLimitError "Rate limit exceeded" (some 60)
        (some ("Max retries (" ++
          toString (⟨"https://test.atlassian.net/wiki", 0, "30.0", "GET",
            "/content/search"⟩ : ReqCfg).maxRetries ++ ") exceeded"))), [], [0]⟩ ∧
    ("Max retries (" ++
        toString (⟨"https://test.atlassian.net/wiki", 0, "30.0", "GET",
          "/content/search"⟩ : ReqCfg).maxRetries ++ ") exceeded") =
      "Max retries (0) exceeded" :=
  claim_C5 _ _ "busy" "{}" rfl rfl

/-! ### Claim C6 -/

/-- Claim C6: with maximum retry count 3, a logical call whose four
consecutive attempts (retry counters 0, 1, 2, 3) all end in connect-timeout
fails with `APIError` "Connection timeout" whose details mention
"after 3 retries" (second conjunct: the rendered fragment of the details is
literally " after 3 retries: "); before each of the three reissues the
executor sleeps `2 ** retry_count` seconds — 1, 2, 4 — and reissues the
identical request (same `cfg`, same script) with the counter incremented
(attempts issued at counters 0, 1, 2, 3). -/
theorem claim_C6 (cfg : ReqCfg) (script : Nat → AttemptOutcome) (m : Nat → String)
    (hmr : cfg.maxRetries = 3)
    (hs : ∀ k, k < 4 → script k = AttemptOutcome.connectTimeout (m k)) :
    makeRequest cfg true script 0 =
      ⟨Except.error (MCPError.apiError "Connection timeout" none
        (some ("Failed to connect to " ++ apiUrl cfg ++ " after " ++
          toString cfg.maxRetries ++ " retries: " ++ m 3))), [1, 2, 4], [0, 1, 2, 3]⟩ ∧
    (" after " ++ toString cfg.maxRetries ++ " retries: ") = " after 3 retries: " := by
  have hg : cfg.maxRetries.toNat - 0 = 2 + 1 := by rw [hmr]; rfl
  constructor
  · rw [makeRequest, if_pos rfl, hg]
    rw [makeRequestGo_connectTimeout_retry cfg script 2 0 (m 0) (hs 0 (by omega))]
    rw [show (2 : Nat) = 1 + 1 from rfl]
    rw [makeRequestGo_connectTimeout_retry cfg script 1 1 (m 1) (hs 1 (by omega))]
    rw [show (1 : Nat) = 0 + 1 from rfl]
    rw [makeRequestGo_connectTimeout_retry cfg script 0 2 (m 2) (hs 2 (by omega))]
    rw [makeRequestGo_connectTimeout_exhausted cfg script 3 (m 3) (hs 3 (by omega))]
    rfl
  · rw [hmr]
    rfl

/-- Witness for C6 at a concrete configuration and script. -/
theorem claim_C6_witness :
    makeRequest ⟨"https://test.atlassian.net/wiki", 3, "30.0", "GET", "/content/search"⟩
        true (fun _ => AttemptOutcome.connectTimeout "no route") 0 =
      ⟨Except.error (MCPError.apiError "Connection timeout" none
        (some ("Failed to connect to " ++
          apiUrl ⟨"https://test.atlassian.net/wiki", 3, "30.0", "GET", "/content/search"⟩ ++
          " after " ++
          toString (⟨"https://test.atlassian.net/wiki", 3, "30.0", "GET",
            "/content/search"⟩ : ReqCfg).maxRetries ++
          " retries: " ++ "no route"))), [1, 2, 4], [0, 1, 2, 3]⟩ ∧
    (" after " ++
        toString (⟨"https://test.atlassian.net/wiki", 3, "30.0", "GET",
          "/content/search"⟩ : ReqCfg).maxRetries ++ " retries: ") =
      " after 3 retries: " :=
  claim_C6 _ _ (fun _ => "no route") rfl (fun _ _ => rfl)

/-! ### Claim C10 -/

/-- Claim C10: on a 429 response whose `Retry-After` header is present but not
parseable as an integer (for instance an HTTP-date), `_make_request` does not
retry at all — whatever the configured maximum retry count: the `int()` parse
raises `ValueError` inside the classification block, and the call fails
immediately (one attempt, no sleep) with the generic `APIError`
"Unexpected error" wrapping the original exception type and message, instead
of `RateLimitError`; `APITokenAuth.authenticate` behaves the same way,
failing with its generic `APIError` "Unexpected error during authentication"
and leaving the state unchanged. -/
theorem claim_C10 (cfg : ReqCfg) (script : Nat → AttemptOutcome)
    (hdr text jsonBody : String) (st : APITokenAuthState)
    (hne : hdr ≠ "") (hbad : pyInt hdr = none)
    (hs : script 0 = AttemptOutcome.resp 429 (some hdr) text jsonBody)
    (hb : optStrFalsy st.baseUrl = false) :
    makeRequest cfg true script 0 =
      ⟨Except.error (MCPError.apiError "Unexpected error" none
        (some ("Unexpected error during API request: ValueError: " ++ pyIntErr hdr))),
        [], [0]⟩ ∧
    authenticate st (AuthOutcome.resp 429 (some hdr) text) =
      (Except.error (MCPError.apiError "Unexpected error during authentication" none
        (some ("Error: " ++ ("ValueError: " ++ pyIntErr hdr)))), st) := by
  have hra : retryAfterSeconds (some hdr) = Except.error ("ValueError: " ++ pyIntErr hdr) := by
    rw [retryAfterSeconds, if_neg hne, hbad]
  constructor
  · rw [makeRequest, if_pos rfl]
    conv_lhs => rw [makeRequestGo]
    rw [hs]
    show (if (429 : Int) = 200 then _ else _) = _
    rw [if_neg (by norm_num), if_neg (by norm_num), if_neg (by norm_num),
      if_neg (by norm_num), if_pos rfl, hra]
    rfl
  · rw [authenticate, if_neg (by rw [hb]; exact Bool.false_ne_true)]
    show (if (429 : Int) = 200 then _ else _) = _
    rw [if_neg (by norm_num), if_neg (by norm_num), if_neg (by norm_num),
      if_pos rfl, hra]

/-- Witness for C10 at a concrete HTTP-date header, configuration and state. -/
theorem claim_C10_witness :
    makeRequest ⟨"https://test.atlassian.net/wiki", 3, "30.0", "GET", "/content/search"⟩
        true (fun _ => AttemptOutcome.resp 429 (some "Wed, 21 Oct 2015 07:28:00 GMT")
          "busy" "{}") 0 =
      ⟨Except.error (MCPError.apiError "Unexpected error" none
        (some ("Unexpected error during API request: ValueError: " ++
          pyIntErr "Wed, 21 Oct 2015 07:28:00 GMT"))), [], [0]⟩ ∧
    authenticate ⟨"user@example.com", "tok", some "https://test.atlassian.net/wiki",
        false, "Basic x"⟩
        (AuthOutcome.resp 429 (some "Wed, 21 Oct 2015 07:28:00 GMT") "busy") =
      (Except.error (MCPError.apiError "Unexpected error during authentication" none
        (some ("Error: " ++ ("ValueError: " ++ pyIntErr "Wed, 21 Oct 2015 07:28:00 GMT")))),
        ⟨"user@example.com", "tok", some "https://test.atlassian.net/wiki",
          false, "Basic x"⟩) :=
  claim_C10 _ _ "Wed, 21 Oct 2015 07:28:00 GMT" "busy" "{}" _ (by decide) (by decide)
    rfl rfl

/-! ### Claim C3 -/

/-- Claim C3: for every pair of non-empty strings (email, api token),
construction succeeds and the authentication header value cached at
construction is the scheme prefix "Basic " followed by the base64 of the
UTF-8 bytes of `"{email}:{api_token}"`; removing the 6-character scheme
prefix and applying the reverse of the fixed encoding (base64 decoding)
yields exactly the UTF-8 bytes of `"{email}:{api_token}"`; and
`get_auth_headers` returns a mapping containing exactly this cached value
plus the content-type declaration. -/
theorem claim_C3 (email apiToken : String) (burl : Option String)
    (h1 : email ≠ "") (h2 : apiToken ≠ "") :
    ∃ st, apiTokenAuthInit email apiToken burl = Except.ok st ∧
      st.cachedAuthHeader =
        "Basic " ++ String.mk (b64encodeBytes (utf8Bytes (email ++ ":" ++ apiToken))) ∧
      b64decodeChars (st.cachedAuthHeader.data.drop 6) =
        some (utf8Bytes (email ++ ":" ++ apiToken)) ∧
      getAuthHeaders st =
        [("Authorization", st.cachedAuthHeader), ("Content-Type", "application/json")] := by
  have hinit : apiTokenAuthInit email apiToken burl = Except.ok
      ⟨email, apiToken,
        (match burl with
          | some b => if b = "" then none else some (pyRStripSlashes b)
          | none => none),
        false,
        "Basic " ++ String.mk (b64encodeBytes (utf8Bytes (email ++ ":" ++ apiToken)))⟩ := by
    rw [apiTokenAuthInit.eq_def, if_neg ?_]
    rintro (h | h)
    · exact h1 h
    · exact h2 h
  refine ⟨_, hinit, rfl, ?_, rfl⟩
  · show b64decodeChars
      (("Basic " ++ String.mk (b64encodeBytes (utf8Bytes (email ++ ":" ++ apiToken)))).data.drop 6)
      = _
    have hdata : ("Basic " ++
        String.mk (b64encodeBytes (utf8Bytes (email ++ ":" ++ apiToken)))).data =
        "Basic ".data ++ b64encodeBytes (utf8Bytes (email ++ ":" ++ apiToken)) := rfl
    rw [hdata]
    have hdrop : ("Basic ".data ++
        b64encodeBytes (utf8Bytes (email ++ ":" ++ apiToken))).drop 6 =
        b64encodeBytes (utf8Bytes (email ++ ":" ++ apiToken)) := by
      rw [show (6 : Nat) = "Basic ".data.length from rfl, List.drop_left]
    rw [hdrop]
    exact b64_roundtrip _ (utf8Bytes_lt _)

/-- Witness for C3 at a concrete credential pair (matching the docstring
example of `get_auth_headers` in src/auth/api_token.py). -/
theorem claim_C3_witness :
    ∃ st, apiTokenAuthInit "email@example.com" "token" none = Except.ok st ∧
      st.cachedAuthHeader =
        "Basic " ++ String.mk (b64encodeBytes (utf8Bytes ("email@example.com" ++ ":" ++ "token"))) ∧
      b64decodeChars (st.cachedAuthHeader.data.drop 6) =
        some (utf8Bytes ("email@example.com" ++ ":" ++ "token")) ∧
      getAuthHeaders st =
        [("Authorization", st.cachedAuthHeader), ("Content-Type", "application/json")] :=
  claim_C3 "email@example.com" "token" none (by decide) (by decide)

/-! ### Claim C7 -/

/-- Claim C7: for every integer limit argument, `search_pages` clamps the
effective limit sent to the remote API into the interval
[MIN_RESULTS_PER_PAGE, MAX_RESULTS_PER_PAGE] = [1, 100]: a call with
limit 200 issues the request with limit 100, a call with limit 0 issues it
with limit 1, limits already inside the interval pass through unchanged, and
`get_child_pages` applies the identical clamp. -/
theorem claim_C7 (cqlQuery : String) (limit start : Int) :
    MIN_RESULTS_PER_PAGE ≤ (searchPagesParams cqlQuery limit start).limit ∧
    (searchPagesParams cqlQuery limit start).limit ≤ MAX_RESULTS_PER_PAGE ∧
    (1 ≤ limit → limit ≤ 100 → (searchPagesParams cqlQuery limit start).limit = limit) ∧
    (searchPagesParams cqlQuery 200 start).limit = 100 ∧
    (searchPagesParams cqlQuery 0 start).limit = 1 ∧
    (getChildPagesParams limit start).limit = (searchPagesParams cqlQuery limit start).limit := by
  simp only [searchPagesParams, getChildPagesParams, MIN_RESULTS_PER_PAGE,
    MAX_RESULTS_PER_PAGE]
  refine ⟨by omega, by omega, fun hl hu => by omega, by omega, by omega, trivial⟩

/-- Witness for C7: the clamp evaluated at in-range, above-range and
below-range limits. -/
theorem claim_C7_witness :
    (searchPagesParams "type=page" 42 0).limit = 42 ∧
    (searchPagesParams "type=page" 200 0).limit = 100 ∧
    (searchPagesParams "type=page" 0 0).limit = 1 :=
  ⟨(claim_C7 "type=page" 42 0).2.2.1 (by norm_num) (by norm_num),
    (claim_C7 "type=page" 200 0).2.2.2.1,
    (claim_C7 "type=page" 0 0).2.2.2.2.1⟩

/-! ### Claim C8 -/

/-- Claim C8: for every page whose body is non-empty, `get_page_content`
called with `as_markdown=True`, when the markup converter raises any
exception, does not propagate it: it returns content_format "html" and
content equal to the original unconverted storage markup (fallback path);
the converter was invoked. -/
theorem claim_C8 (html : String) (conv : String → ConvOutcome) (excType msg : String)
    (hne : html ≠ "") (hraise : conv html = ConvOutcome.exn excType msg) :
    renderPageBody true html conv = (html, "html", true) := by
  rw [renderPageBody, if_pos ⟨rfl, hne⟩, hraise]

/-- Witness for C8 at a concrete body and a converter that raises. -/
theorem claim_C8_witness :
    renderPageBody true "<p>x</p>" (fun _ => ConvOutcome.exn "ValueError" "boom") =
      ("<p>x</p>", "html", true) :=
  claim_C8 "<p>x</p>" (fun _ => ConvOutcome.exn "ValueError" "boom") "ValueError" "boom"
    (by decide) rfl

/-! ### Claim C9 -/

/-- Claim C9 (implicit): `get_page_content` with `as_markdown=True` on a page
whose stored body is the empty string never invokes the converter and returns
content_format "html" with empty content; and the "markdown" format is only
ever reported when `as_markdown` holds, the body is non-empty and the
converter succeeded. -/
theorem claim_C9 :
    (∀ conv : String → ConvOutcome, renderPageBody true "" conv = ("", "html", false)) ∧
    (∀ (asMarkdown : Bool) (html : String) (conv : String → ConvOutcome),
      (renderPageBody asMarkdown html conv).2.1 = "markdown" →
        asMarkdown = true ∧ html ≠ "" ∧ ∃ md, conv html = ConvOutcome.ok md) := by
  constructor
  · intro conv
    rw [renderPageBody, if_neg]
    rintro ⟨-, h⟩
    exact h rfl
  · intro asMarkdown html conv h
    by_cases hc : asMarkdown = true ∧ html ≠ ""
    · rcases hm : conv html with md | ⟨ty, m⟩
      · exact ⟨hc.1, hc.2, md, rfl⟩
      · rw [renderPageBody, if_pos hc, hm] at h
        simp at h
    · rw [renderPageBody, if_neg hc] at h
      simp at h

/-- Witness for C9: the empty-body case at a concrete converter, and the
format implication discharged at a concrete successful conversion. -/
theorem claim_C9_witness :
    renderPageBody true "" (fun _ => ConvOutcome.ok "m") = ("", "html", false) ∧
    (true = true ∧ "<p>x</p>" ≠ "" ∧
      ∃ md, (fun _ : String => ConvOutcome.ok "m") "<p>x</p>" = ConvOutcome.ok md) :=
  ⟨claim_C9.1 (fun _ => ConvOutcome.ok "m"),
    claim_C9.2 true "<p>x</p>" (fun _ => ConvOutcome.ok "m") rfl⟩

/-! ### Whitespace-only input through the postprocess stage -/

theorem tmCollapseNl_repl (s : List Char) (k : Nat) (repl : List Char)
    (h : tmCollapseNl s = some (k, repl)) : repl = ['\n', '\n'] := by
  unfold tmCollapseNl at h
  split at h
  · simp only [Option.some.injEq, Prod.mk.injEq] at h
    exact h.2.symm
  · exact absurd h (by simp)

theorem wsOnly_cons {c : Char} {r : List Char} (h : wsOnly (c :: r) = true) :
    isPyWs c = true ∧ wsOnly r = true := by
  simpa [wsOnly] using h

theorem wsOnly_drop (l : List Char) (k : Nat) (h : wsOnly l = true) :
    wsOnly (l.drop k) = true := by
  unfold wsOnly at *
  rw [List.all_eq_true] at *
  intro x hx
  exact h x (List.mem_of_mem_drop hx)

theorem wsOnly_subScanF_collapse :
    ∀ (fuel : Nat) (l : List Char), wsOnly l = true →
      wsOnly (subScanF tmCollapseNl fuel l) = true := by
  intro fuel
  induction fuel with
  | zero => intro l h; exact h
  | succ f ih =>
    intro l h
    cases l with
    | nil => exact h
    | cons c r =>
      rw [subScanF]
      cases htm : tmCollapseNl (c :: r) with
      | some kr =>
        obtain ⟨k, repl⟩ := kr
        have hrepl : repl = ['\n', '\n'] := tmCollapseNl_repl _ _ _ htm
        subst hrepl
        have hrec := ih ((c :: r).drop k) (wsOnly_drop _ _ h)
        simp only [wsOnly, List.all_append, List.all_cons, List.all_nil,
          Bool.and_eq_true] at *
        exact ⟨⟨by decide, by decide, trivial⟩, hrec⟩
      | none =>
        have hc := wsOnly_cons h
        have hrec := ih r hc.2
        simp only [wsOnly, List.all_cons, Bool.and_eq_true] at *
        exact ⟨hc.1, hrec⟩

theorem splitNl_wsOnly :
    ∀ l : List Char, wsOnly l = true → ∀ p ∈ splitNl l, wsOnly p = true := by
  intro l
  induction l with
  | nil =>
    intro _ p hp
    simp only [splitNl, List.mem_singleton] at hp
    subst hp
    rfl
  | cons c r ih =>
    intro h p hp
    have hc := wsOnly_cons h
    by_cases hcn : c = '\n'
    · subst hcn
      rw [splitNl, if_pos rfl] at hp
      rcases List.mem_cons.mp hp with rfl | hp2
      · rfl
      · exact ih hc.2 p hp2
    · rw [splitNl, if_neg hcn] at hp
      cases hsp : splitNl r with
      | nil =>
        rw [hsp] at hp
        simp only [List.mem_singleton] at hp
        subst hp
        simp [wsOnly, hc.1]
      | cons q qs =>
        rw [hsp] at hp
        rcases List.mem_cons.mp hp with rfl | hp2
        · have hq : wsOnly q = true := ih hc.2 q (by rw [hsp]; exact List.mem_cons_self q qs)
          simp only [wsOnly, List.all_cons, Bool.and_eq_true]
          exact ⟨hc.1, hq⟩
        · exact ih hc.2 p (by rw [hsp]; exact List.mem_cons_of_mem q hp2)

theorem pyRStrip_eq_nil (p : List Char) (h : wsOnly p = true) : pyRStrip p = [] := by
  unfold pyRStrip
  have hrev : p.reverse.dropWhile isPyWs = [] := by
    rw [List.dropWhile_eq_nil_iff]
    intro x hx
    unfold wsOnly at h
    rw [List.all_eq_true] at h
    exact h x (List.mem_reverse.mp hx)
  rw [hrev]
  rfl

theorem nlOnly_joinNl :
    ∀ ps : List (List Char), (∀ p ∈ ps, p = []) → nlOnly (joinNl ps) = true := by
  intro ps
  induction ps with
  | nil => intro _; rfl
  | cons p ps2 ih =>
    intro h
    cases ps2 with
    | nil =>
      have hp := h p (List.mem_singleton_self p)
      subst hp
      rfl
    | cons q qs =>
      have hp := h p (List.mem_cons_self p (q :: qs))
      subst hp
      show nlOnly ([] ++ '\n' :: joinNl (q :: qs)) = true
      have hrec := ih (fun x hx => h x (List.mem_cons_of_mem _ hx))
      simp only [nlOnly, List.nil_append, List.all_cons, Bool.and_eq_true] at *
      exact ⟨rfl, hrec⟩

theorem nlOnly_pyRStripLines (l : List Char) (h : wsOnly l = true) :
    nlOnly (pyRStripLines l) = true := by
  unfold pyRStripLines
  apply nlOnly_joinNl
  intro p hp
  rw [List.mem_map] at hp
  obtain ⟨q, hq, rfl⟩ := hp
  exact pyRStrip_eq_nil q (splitNl_wsOnly l h q hq)

/-! ### Scans are the identity when their pattern is absent -/

theorem subScanF_id (tm : List Char → Option (Nat × List Char)) (inv : List Char → Bool)
    (hstep : ∀ c r, inv (c :: r) = true → tm (c :: r) = none ∧ inv r = true) :
    ∀ (fuel : Nat) (l : List Char), inv l = true → subScanF tm fuel l = l := by
  intro fuel
  induction fuel with
  | zero => intro l _; rfl
  | succ f ih =>
    intro l h
    cases l with
    | nil => rfl
    | cons c r =>
      rw [subScanF, (hstep c r h).1]
      show c :: subScanF tm f r = c :: r
      rw [ih r (hstep c r h).2]

theorem nlOnly_cons {c : Char} {r : List Char} (h : nlOnly (c :: r) = true) :
    c = '\n' ∧ nlOnly r = true := by
  simpa [nlOnly] using h

theorem tmBlankBeforeHeading_nlOnly (c : Char) (r : List Char)
    (h : nlOnly (c :: r) = true) : tmBlankBeforeHeading (c :: r) = none := by
  obtain ⟨rfl, hr⟩ := nlOnly_cons h
  cases r with
  | nil => rfl
  | cons d r2 =>
    obtain ⟨rfl, _⟩ := nlOnly_cons hr
    rfl

theorem tmBlankAfterHeading_nlOnly (c : Char) (r : List Char)
    (h : nlOnly (c :: r) = true) : tmBlankAfterHeading (c :: r) = none := by
  obtain ⟨rfl, _⟩ := nlOnly_cons h
  rfl

theorem tmFenceOpenBlank_nlOnly (c : Char) (r : List Char)
    (h : nlOnly (c :: r) = true) : tmFenceOpenBlank (c :: r) = none := by
  obtain ⟨rfl, _⟩ := nlOnly_cons h
  rfl

theorem tmFenceCloseBlank_nlOnly (c : Char) (r : List Char)
    (h : nlOnly (c :: r) = true) : tmFenceCloseBlank (c :: r) = none := by
  obtain ⟨rfl, hr⟩ := nlOnly_cons h
  cases r with
  | nil => rfl
  | cons d r2 =>
    obtain ⟨rfl, hr2⟩ := nlOnly_cons hr
    cases r2 with
    | nil => rfl
    | cons e r3 =>
      obtain ⟨rfl, _⟩ := nlOnly_cons hr2
      rfl

theorem pyStrip_nlOnly (l : List Char) (h : nlOnly l = true) : pyStrip l = [] := by
  unfold pyStrip pyLStrip
  have h1 : l.dropWhile isPyWs = [] := by
    rw [List.dropWhile_eq_nil_iff]
    intro x hx
    unfold nlOnly at h
    rw [List.all_eq_true] at h
    have : x = '\n' := by simpa using h x hx
    subst this
    rfl
  rw [h1]
  rfl

theorem postprocessL_wsOnly (l : List Char) (h : wsOnly l = true) :
    postprocessMarkdownL l = [] := by
  have h1 : wsOnly (subScanF tmCollapseNl l.length l) = true :=
    wsOnly_subScanF_collapse _ _ h
  have h2 : nlOnly (pyRStripLines (subScanF tmCollapseNl l.length l)) = true :=
    nlOnly_pyRStripLines _ h1
  have step3 := subScanF_id tmBlankBeforeHeading nlOnly
    (fun c r hc => ⟨tmBlankBeforeHeading_nlOnly c r hc, (nlOnly_cons hc).2⟩)
  have step4 := subScanF_id tmBlankAfterHeading nlOnly
    (fun c r hc => ⟨tmBlankAfterHeading_nlOnly c r hc, (nlOnly_cons hc).2⟩)
  have step5 := subScanF_id tmFenceOpenBlank nlOnly
    (fun c r hc => ⟨tmFenceOpenBlank_nlOnly c r hc, (nlOnly_cons hc).2⟩)
  have step6 := subScanF_id tmFenceCloseBlank nlOnly
    (fun c r hc => ⟨tmFenceCloseBlank_nlOnly c r hc, (nlOnly_cons hc).2⟩)
  show pyStrip (subScan tmFenceCloseBlank (subScan tmFenceOpenBlank
    (subScan tmBlankAfterHeading (subScan tmBlankBeforeHeading
      (pyRStripLines (subScan tmCollapseNl l)))))) = []
  simp only [subScan]
  rw [step3 _ _ h2, step4 _ _ h2, step5 _ _ h2, step6 _ _ h2]
  exact pyStrip_nlOnly _ h2

theorem subScanF_id_of_noMatch (tm : List Char → Option (Nat × List Char)) :
    ∀ (fuel : Nat) (l : List Char), noMatchIn tm l = true → subScanF tm fuel l = l := by
  intro fuel
  induction fuel with
  | zero => intro l _; rfl
  | succ f ih =>
    intro l h
    cases l with
    | nil => rfl
    | cons c r =>
      have hx : (tm (c :: r)).isNone = true ∧ noMatchIn tm r = true := by
        simpa [noMatchIn, List.tails_cons, Bool.and_eq_true] using h
      rw [subScanF, Option.isNone_iff_eq_none.mp hx.1]
      show c :: subScanF tm f r = c :: r
      rw [ih r hx.2]

/-- On a string in postprocess normal form, `_postprocess_markdown` is the
identity. -/
theorem cleanMarkdown_postprocess (l : List Char) (h : cleanMarkdown l = true) :
    postprocessMarkdownL l = l := by
  simp only [cleanMarkdown, Bool.and_eq_true] at h
  obtain ⟨⟨⟨⟨⟨⟨h1, h2⟩, h3⟩, h4⟩, h5⟩, h6⟩, h7⟩ := h
  show pyStrip (subScan tmFenceCloseBlank (subScan tmFenceOpenBlank
    (subScan tmBlankAfterHeading (subScan tmBlankBeforeHeading
      (pyRStripLines (subScan tmCollapseNl l)))))) = l
  simp only [subScan]
  rw [subScanF_id_of_noMatch _ _ _ h1, eq_of_beq h2,
    subScanF_id_of_noMatch _ _ _ h3, subScanF_id_of_noMatch _ _ _ h4,
    subScanF_id_of_noMatch _ _ _ h5, subScanF_id_of_noMatch _ _ _ h6,
    eq_of_beq h7]

/-! ### Preprocess is the identity on tag-free input

Every pattern of `_preprocess_html` opens with a literal whose first
character is `<`, so on input containing no `<` every scan is the identity. -/

theorem isPrefixOf_false_of_head (lit : List Char) (c : Char) (r : List Char)
    (hlit : lit.head? = some '<') (hc : c ≠ '<') :
    List.isPrefixOf lit (c :: r) = false := by
  cases lit with
  | nil => simp at hlit
  | cons a t =>
    have ha : a = '<' := by simpa using hlit
    subst ha
    show ('<' == c && List.isPrefixOf t r) = false
    have : ('<' == c) = false := by
      rw [beq_eq_false_iff_ne]
      exact fun hh => hc hh.symm
    rw [this, Bool.false_and]

theorem tmStructuredBlock_none (lit : List Char) (repl : List Char → List Char)
    (hlit : lit.head? = some '<') (c : Char) (r : List Char) (hc : c ≠ '<') :
    tmStructuredBlock lit repl (c :: r) = none := by
  unfold tmStructuredBlock matchTagBlock
  rw [isPrefixOf_false_of_head lit c r hlit hc]
  rfl

theorem matchWrapperBlock_none (openLit inner close : List Char)
    (hlit : openLit.head? = some '<') (c : Char) (r : List Char) (hc : c ≠ '<') :
    matchWrapperBlock openLit inner close (c :: r) = none := by
  unfold matchWrapperBlock
  rw [isPrefixOf_false_of_head openLit c r hlit hc]
  rfl

theorem matchWrapperBlockAttrs_none (openLit inner close : List Char)
    (hlit : openLit.head? = some '<') (c : Char) (r : List Char) (hc : c ≠ '<') :
    matchWrapperBlockAttrs openLit inner close (c :: r) = none := by
  unfold matchWrapperBlockAttrs
  rw [isPrefixOf_false_of_head openLit c r hlit hc]
  rfl

theorem tmEmptyWrapper_none (c : Char) (r : List Char) (hc : c ≠ '<') :
    tmEmptyWrapper (c :: r) = none := by
  unfold tmEmptyWrapper
  rw [isPrefixOf_false_of_head "<ac:structured-macro".data c r rfl hc]
  rfl

/-- A `subScanF` whose matcher rejects every suffix headed by a character
other than `<` is the identity on `<`-free input. -/
theorem subScanF_id_tagFree (tm : List Char → Option (Nat × List Char))
    (hnone : ∀ c r, c ≠ '<' → tm (c :: r) = none) :
    ∀ (fuel : Nat) (l : List Char), l.all (fun ch => ch != '<') = true →
      subScanF tm fuel l = l :=
  subScanF_id tm (fun l => l.all (fun ch => ch != '<'))
    (fun c r hin => by
      have hin2 : ((c :: r).all (fun ch => ch != '<')) = true := hin
      rw [List.all_cons, Bool.and_eq_true] at hin2
      exact ⟨hnone c r (by simpa using hin2.1), hin2.2⟩)

theorem preprocessHtml_tagFree (mdFn : String → String) (l : List Char)
    (h : l.all (fun ch => ch != '<') = true) : preprocessHtml mdFn l = l := by
  have e1 : handleConfluenceMacros mdFn l = l := by
    show subScanF _ _ (subScanF _ _ (subScanF _ _ (subScanF _ _ (subScanF _ _
      (subScanF _ _ (subScanF _ _ l)))))) = l
    rw [subScanF_id_tagFree _
        (tmStructuredBlock_none "<ac:structured-macro ac:name=\"code\"".data
          replaceCodeBlock rfl) _ _ h,
      subScanF_id_tagFree _
        (tmStructuredBlock_none "<ac:structured-macro ac:name=\"info\"".data
          (replacePanelBlock mdFn "ℹ️ INFO") rfl) _ _ h,
      subScanF_id_tagFree _
        (tmStructuredBlock_none "<ac:structured-macro ac:name=\"warning\"".data
          (replacePanelBlock mdFn "⚠️ WARNING") rfl) _ _ h,
      subScanF_id_tagFree _
        (tmStructuredBlock_none "<ac:structured-macro ac:name=\"note\"".data
          (replacePanelBlock mdFn "📝 NOTE") rfl) _ _ h,
      subScanF_id_tagFree _
        (tmStructuredBlock_none "<ac:structured-macro ac:name=\"tip\"".data
          (replacePanelBlock mdFn "💡 TIP") rfl) _ _ h,
      subScanF_id_tagFree _
        (tmStructuredBlock_none "<ac:structured-macro ac:name=\"toc\"".data
          (fun _ => []) rfl) _ _ h,
      subScanF_id_tagFree _
        (tmStructuredBlock_none "<ac:structured-macro".data
          (fun full => extractMacroBody "rich-text-body" full) rfl) _ _ h]
  have e2 : handleConfluenceLinks l = l := by
    show subScanF _ _ (subScanF _ _ l) = l
    rw [subScanF_id_tagFree _
        (fun c r hc => by
          show (matchWrapperBlock "<ac:link>".data "<ri:page".data
            "</ac:link>".data (c :: r)).map _ = none
          rw [matchWrapperBlock_none "<ac:link>".data "<ri:page".data
            "</ac:link>".data rfl c r hc]
          rfl) _ _ h,
      subScanF_id_tagFree _
        (fun c r hc => by
          show (matchWrapperBlock "<ac:link>".data "<ri:url".data
            "</ac:link>".data (c :: r)).map _ = none
          rw [matchWrapperBlock_none "<ac:link>".data "<ri:url".data
            "</ac:link>".data rfl c r hc]
          rfl) _ _ h]
  have e3 : handleConfluenceImages l = l := by
    show subScanF _ _ (subScanF _ _ l) = l
    rw [subScanF_id_tagFree _
        (fun c r hc => by
          show (matchWrapperBlockAttrs "<ac:image".data "<ri:attachment".data
            "</ac:image>".data (c :: r)).map _ = none
          rw [matchWrapperBlockAttrs_none "<ac:image".data "<ri:attachment".data
            "</ac:image>".data rfl c r hc]
          rfl) _ _ h,
      subScanF_id_tagFree _
        (fun c r hc => by
          show (matchWrapperBlockAttrs "<ac:image".data "<ri:url".data
            "</ac:image>".data (c :: r)).map _ = none
          rw [matchWrapperBlockAttrs_none "<ac:image".data "<ri:url".data
            "</ac:image>".data rfl c r hc]
          rfl) _ _ h]
  show subScan tmEmptyWrapper
    (handleConfluenceImages (handleConfluenceLinks (handleConfluenceMacros mdFn l))) = l
  rw [e1, e2, e3, subScan, subScanF_id_tagFree _ tmEmptyWrapper_none _ _ h]

/-! ### Claim C2 -/

set_option maxHeartbeats 2000000 in
/-- Claim C2, counterexample to "whitespace-only input returns the empty
string immediately without invoking the base HTML-to-markdown conversion
step": `convert("   ")` does return the empty string, but only after running
the full pipeline — the `if not html` guard is false for `"   "` (only the
empty string is falsy in Python), so the base conversion step *is* invoked
(`baseInvoked = true`), here with the identity function as the base
conversion. -/
theorem claim_C2_cex :
    convertWith (fun s => s) "   " = ⟨"", true⟩ := by decide

set_option maxHeartbeats 2000000 in
/-- Claim C2, amended: `convert("")` returns `""` immediately, bypassing the
pipeline without invoking the base conversion step and without raising;
`convert("   ")` also returns `""` and raises nothing, but only by running
the full pipeline — the base conversion step is invoked on the (unchanged)
whitespace-only input, and the final postprocess stage reduces its
whitespace-only output to the empty string. -/
theorem claim_C2 (mdFn : String → String)
    (hws : wsOnly (mdFn "   ").data = true) :
    convertWith mdFn "" = ⟨"", false⟩ ∧ convertWith mdFn "   " = ⟨"", true⟩ := by
  refine ⟨rfl, ?_⟩
  have hpre : String.mk (preprocessHtml mdFn "   ".data) = "   " := by
    rw [preprocessHtml_tagFree mdFn _ (by decide)]
  rw [convertWith, if_neg (by decide), hpre]
  have hpost : postprocessMarkdown (mdFn "   ") = "" := by
    unfold postprocessMarkdown
    rw [postprocessL_wsOnly _ hws]
  rw [hpost]

set_option maxHeartbeats 2000000 in
/-- Witness for C2 at a base conversion mapping everything to a single
space (whitespace-only, as `markdownify` does on whitespace-only input). -/
theorem claim_C2_witness :
    convertWith (fun _ => " ") "" = ⟨"", false⟩ ∧
    convertWith (fun _ => " ") "   " = ⟨"", true⟩ :=
  claim_C2 (fun _ => " ") (by decide)

/-! ### The postprocess stage alone is not idempotent

`_postprocess_markdown` is the identity on strings in postprocess normal form
(`cleanMarkdown_postprocess`), but not idempotent on arbitrary strings: the
per-line trailing-whitespace strip runs after the newline-collapse pass and
can leave a fresh run of three newlines, which only a second pass collapses.
Whether such strings occur among the outputs of the external `markdownify`
base conversion on already-clean input is a property of that library, not of
this repository's code. -/

set_option maxHeartbeats 1000000 in
theorem postprocessMarkdown_not_idempotent :
    postprocessMarkdown (postprocessMarkdown "a \n \n \n# h") ≠
      postprocessMarkdown "a \n \n \n# h" := by decide
